import Mathlib

/-!
Shallow embedding of the e5000 sales-workflow application (Next.js + Supabase).

The embedding models the persisted relations (sessions, mockups, estimates,
pricing catalog) as Lean lists of records, and each API route or client-side
operation as a pure function on that state.  External collaborators (blob
storage, image generation, email delivery, the spreadsheet provider) are
modelled by explicit parameters carrying their outcome; monetary arithmetic,
written over IEEE doubles in the source, is modelled over the rationals.
-/

namespace E5000

/-- A row of the sessions table (see the schema in the repository README and
the generated database types). -/
structure Session where
  id : Nat
  client_name : String
  client_email : Option String
  original_image_url : Option String
  final_mockup_url : Option String
  status : String
  updated_at : String
  deriving Repr, DecidableEq

/-- A row of the mockups table: one AI-generated design image belonging to a
session. -/
structure Mockup where
  id : Nat
  session_id : Nat
  image_url : String
  prompt : String
  ai_provider : String
  is_final : Bool
  deriving Repr, DecidableEq

/-- One line item of an estimate, as exchanged between EstimateBuilder and the
pricing route: quantity, the representative's chosen unit price, and the
catalog low/high prices. -/
structure EstimateItem where
  quantity : ℚ
  selectedPrice : ℚ
  lowPrice : ℚ
  highPrice : ℚ
  deriving Repr, DecidableEq

/-- A row of the estimates table. -/
structure Estimate where
  id : Nat
  session_id : Nat
  items : List EstimateItem
  subtotal : ℚ
  low_estimate : ℚ
  high_estimate : ℚ
  final_amount : ℚ
  contract_pdf_url : Option String
  signature_data : Option String
  signed_at : Option String
  signature_method : Option String
  deriving Repr, DecidableEq

/-- The structured store: the three session-scoped relations. -/
structure DB where
  sessions : List Session
  mockups : List Mockup
  estimates : List Estimate
  deriving Repr, DecidableEq

/-- JavaScript truthiness of a nullable string column: non-null and non-empty. -/
def truthyOpt : Option String → Bool
  | none => false
  | some s => s ≠ ""

/-- The four derived monetary outputs of the estimate calculator. -/
structure Totals where
  subtotal : ℚ
  discountAmount : ℚ
  taxAmount : ℚ
  total : ℚ
  deriving Repr, DecidableEq

/-- calculateTotals of EstimateBuilder.tsx (the same arithmetic appears in the
pricing route POST handler): subtotal by reduce, then discount, then tax on the
post-discount amount. -/
def calculateTotals (items : List EstimateItem) (discountPercent taxPercent : ℚ) : Totals :=
  let subtotal := items.foldl (fun sum item => sum + item.quantity * item.selectedPrice) 0
  let discountAmount := subtotal * (discountPercent / 100)
  let afterDiscount := subtotal - discountAmount
  let taxAmount := afterDiscount * (taxPercent / 100)
  let total := afterDiscount + taxAmount
  { subtotal := subtotal, discountAmount := discountAmount, taxAmount := taxAmount, total := total }

theorem foldl_add_map_sum (f : EstimateItem → ℚ) (l : List EstimateItem) (a : ℚ) :
    l.foldl (fun sum item => sum + f item) a = a + (l.map f).sum := by
  induction l generalizing a with
  | nil => simp
  | cons x xs ih => simp [List.foldl_cons, ih (a + f x)]; ring

/-- C2: the estimate totals follow the specified formulas, with tax applied to
the post-discount amount, and the worked example of the spec evaluates to
subtotal 25, discountAmount 2.50, taxAmount 1.80, total 24.30. -/
theorem calculateTotals_spec (items : List EstimateItem) (discountPercent taxPercent : ℚ) :
    (calculateTotals items discountPercent taxPercent).subtotal
        = (items.map (fun item => item.quantity * item.selectedPrice)).sum
    ∧ (calculateTotals items discountPercent taxPercent).discountAmount
        = (calculateTotals items discountPercent taxPercent).subtotal * (discountPercent / 100)
    ∧ (calculateTotals items discountPercent taxPercent).taxAmount
        = ((calculateTotals items discountPercent taxPercent).subtotal
            - (calculateTotals items discountPercent taxPercent).discountAmount) * (taxPercent / 100)
    ∧ (calculateTotals items discountPercent taxPercent).total
        = ((calculateTotals items discountPercent taxPercent).subtotal
            - (calculateTotals items discountPercent taxPercent).discountAmount)
          + (calculateTotals items discountPercent taxPercent).taxAmount
    ∧ calculateTotals [⟨2, 10, 0, 0⟩, ⟨1, 5, 0, 0⟩] 10 8
        = { subtotal := 25, discountAmount := 5/2, taxAmount := 9/5, total := 243/10 } := by
  refine ⟨?_, rfl, rfl, rfl, ?_⟩
  · simp [calculateTotals, foldl_add_map_sum]
  · simp [calculateTotals]
    norm_num

/-- The mark-final API route (POST, mark-final): look the mockup up by id,
reset is_final on every mockup of the session, set is_final on the chosen one,
then store its image_url as the session final_mockup_url. -/
def markMockupFinal (db : DB) (sessionId mockupId : Nat) (now : String) : Except String DB :=
  match db.mockups.find? (fun m => m.id == mockupId) with
  | none => Except.error "Mockup not found"
  | some mockup =>
    let afterReset := db.mockups.map fun m =>
      if m.session_id == sessionId then { m with is_final := false } else m
    let afterSet := afterReset.map fun m =>
      if m.id == mockupId then { m with is_final := true } else m
    let sessions := db.sessions.map fun s =>
      if s.id == sessionId then
        { s with final_mockup_url := some mockup.image_url, updated_at := now }
      else s
    Except.ok { db with mockups := afterSet, sessions := sessions }

/-- The generate-mockup API route (POST), success path: the session must
exist; the generated image is stored, a new mockup row is inserted with
is_final false, and the session is updated with status mockup_created and the
new image as final_mockup_url. -/
def generateMockup (db : DB) (sessionId newId : Nat)
    (publicUrl landscapingPrompt now : String) : Except String DB :=
  match db.sessions.find? (fun s => s.id == sessionId) with
  | none => Except.error "Session not found"
  | some _ =>
    let mockup : Mockup :=
      { id := newId, session_id := sessionId, image_url := publicUrl,
        prompt := landscapingPrompt, ai_provider := "openai-dalle3", is_final := false }
    let sessions := db.sessions.map fun s =>
      if s.id == sessionId then
        { s with status := "mockup_created",
                 final_mockup_url := some publicUrl, updated_at := now }
      else s
    Except.ok { db with mockups := db.mockups ++ [mockup], sessions := sessions }

/-- Outcome of the blob-store delete call made by the delete-photo route. -/
inductive StorageResult
  | ok
  | err (msg : String)
  deriving Repr, DecidableEq

/-- The delete-photo route infers bucket and path from the public URL path
segments: find the segment "public"; the next segment is the bucket and the
rest joined by "/" is the path within the bucket. -/
def parseStorageRef (pathParts : List String) : Option (String × String) :=
  match pathParts.dropWhile (fun p => p ≠ "public") with
  | [] => none
  | [_] => none
  | _ :: bucket :: rest => some (bucket, String.intercalate "/" rest)

/-- The delete-photo API route (POST), success path of the structured-store
update: parse the storage URL, attempt the blob delete (an error there is only
logged), null out original_image_url on the session, then delete the mockups
of the session. -/
def removePhoto (db : DB) (sessionId : Nat) (urlPathParts : List String)
    (storageResult : StorageResult) (now : String) : Except String DB :=
  match parseStorageRef urlPathParts with
  | none => Except.error "Unrecognized storage URL format"
  | some _ =>
    let sessions := db.sessions.map fun s =>
      if s.id == sessionId then { s with original_image_url := none, updated_at := now }
      else s
    let mockups := db.mockups.filter fun m => !(m.session_id == sessionId)
    Except.ok { db with sessions := sessions, mockups := mockups }

/-- Errors surfaced by the estimate-saving flow. -/
inductive SaveEstimateError
  | validationFailed (msg : String)
  | upstream (msg : String)
  deriving Repr, DecidableEq

/-- The pricing API route (POST), success path: compute the totals and the
low/high range, insert the estimate row, and set the session status to
estimate_generated. -/
def saveEstimateRoute (db : DB) (sessionId newId : Nat) (items : List EstimateItem)
    (discountPercent taxPercent : ℚ) (now : String) : DB × Totals :=
  let subtotal := items.foldl (fun sum item => sum + item.quantity * item.selectedPrice) 0
  let discountAmount := subtotal * (discountPercent / 100)
  let afterDiscount := subtotal - discountAmount
  let taxAmount := afterDiscount * (taxPercent / 100)
  let total := afterDiscount + taxAmount
  let lowEstimate := items.foldl (fun sum item => sum + item.quantity * item.lowPrice) 0
  let highEstimate := items.foldl (fun sum item => sum + item.quantity * item.highPrice) 0
  let estimate : Estimate :=
    { id := newId, session_id := sessionId, items := items, subtotal := subtotal,
      low_estimate := lowEstimate, high_estimate := highEstimate, final_amount := total,
      contract_pdf_url := none, signature_data := none, signed_at := none,
      signature_method := none }
  let sessions := db.sessions.map fun s =>
    if s.id == sessionId then { s with status := "estimate_generated", updated_at := now }
    else s
  ({ db with estimates := db.estimates ++ [estimate], sessions := sessions },
   { subtotal := subtotal, discountAmount := discountAmount, taxAmount := taxAmount,
     total := total })

/-- saveEstimate of EstimateBuilder.tsx: the client-side orchestration rejects
an empty item list up front, before issuing the request; otherwise it calls the
pricing route. -/
def saveEstimate (db : DB) (sessionId newId : Nat) (items : List EstimateItem)
    (discountPercent taxPercent : ℚ) (now : String) :
    DB × Except SaveEstimateError Totals :=
  if items.isEmpty then
    (db, Except.error (SaveEstimateError.validationFailed
      "Please add at least one item to the estimate."))
  else
    let result := saveEstimateRoute db sessionId newId items discountPercent taxPercent now
    (result.1, Except.ok result.2)

/-- C6: saving an estimate with an empty item list is rejected with a
validation failure before any side effect: the store is unchanged and no
estimate row is created; the calculator itself maps the empty list to all-zero
outputs rather than an error. -/
theorem saveEstimate_empty_rejected (db : DB) (sessionId newId : Nat)
    (discountPercent taxPercent : ℚ) (now : String) :
    (saveEstimate db sessionId newId [] discountPercent taxPercent now).1 = db
    ∧ (∃ msg, (saveEstimate db sessionId newId [] discountPercent taxPercent now).2
        = Except.error (SaveEstimateError.validationFailed msg))
    ∧ (saveEstimate db sessionId newId [] discountPercent taxPercent now).1.estimates
        = db.estimates
    ∧ calculateTotals [] discountPercent taxPercent
        = { subtotal := 0, discountAmount := 0, taxAmount := 0, total := 0 } := by
  refine ⟨rfl, ⟨_, rfl⟩, rfl, ?_⟩
  simp [calculateTotals]

/-- getStepStatus of the session workflow page: the per-step completion
predicate derived from the session and estimate data. -/
def stepCompleted (session : Session) (estimate : Option Estimate) : Nat → Bool
  | 1 => (session.client_name != "") && truthyOpt session.client_email
  | 2 => truthyOpt session.original_image_url
  | 3 => truthyOpt session.final_mockup_url
  | 4 => estimate.isSome
  | 5 => truthyOpt (estimate.bind Estimate.signed_at)
  | 6 => truthyOpt (estimate.bind Estimate.signed_at)
  | _ => false

/-- getStepStatus of the session workflow page: completed when the derived
completion set contains the step, else current when it is the page step, else
upcoming. -/
def getStepStatus (session : Session) (estimate : Option Estimate)
    (currentStep stepNumber : Nat) : String :=
  if stepCompleted session estimate stepNumber then "completed"
  else if stepNumber == currentStep then "current"
  else "upcoming"

/-- Modelled from the spec wording of claim C5 (for comparison with the code):
stage 1 is complete when the client name is non-empty and differs from the
placeholder value. -/
def specStage1Complete (session : Session) : Prop :=
  session.client_name ≠ "" ∧ session.client_name ≠ "New Client"

/-- A session holding the placeholder client name together with a client
email: the page counts stage 1 as completed for it. -/
def c5session : Session :=
  { id := 1, client_name := "New Client", client_email := some "client@example.com",
    original_image_url := none, final_mockup_url := none, status := "draft",
    updated_at := "t0" }

/-- C5 counterexample: the page counts stage 1 of c5session as completed even
though its client name is exactly the placeholder, refuting the claimed
equivalence. -/
theorem getStepStatus_stage1_counterexample :
    getStepStatus c5session none 2 1 = "completed" ∧ ¬ specStage1Complete c5session := by
  refine ⟨rfl, fun h => h.2 rfl⟩

theorem stepCompleted_one (session : Session) (estimate : Option Estimate) :
    stepCompleted session estimate 1 = true
      ↔ (session.client_name ≠ "" ∧ ∃ e, session.client_email = some e ∧ e ≠ "") := by
  cases hce : session.client_email with
  | none => simp [stepCompleted, truthyOpt, hce]
  | some e => simp [stepCompleted, truthyOpt, hce]

/-- C5 amended: stage 1 is counted as completed iff the session's client name
is non-empty and its client email is present and non-empty; the placeholder
client name is not consulted by the completion computation. -/
theorem getStepStatus_stage1_iff (session : Session) (estimate : Option Estimate)
    (currentStep : Nat) :
    getStepStatus session estimate currentStep 1 = "completed"
      ↔ (session.client_name ≠ "" ∧ ∃ e, session.client_email = some e ∧ e ≠ "") := by
  constructor
  · intro hc
    rw [getStepStatus] at hc
    split at hc
    · exact (stepCompleted_one session estimate).mp (by assumption)
    · split at hc <;> simp at hc
  · intro hr
    rw [getStepStatus, if_pos ((stepCompleted_one session estimate).mpr hr)]

theorem countP_eq_one_of_unique {α : Type} (l : List α) (p : α → Bool) (a : α)
    (hnd : l.Nodup) (ha : a ∈ l) (hpa : p a = true)
    (hu : ∀ x ∈ l, p x = true → x = a) : l.countP p = 1 := by
  induction l with
  | nil => cases ha
  | cons x xs ih =>
    rcases List.mem_cons.mp ha with rfl | ha'
    · have hzero : xs.countP p = 0 := by
        refine List.countP_eq_zero.mpr fun y hy hpy => ?_
        have hya := hu y (List.mem_cons_of_mem _ hy) hpy
        subst hya
        exact (List.nodup_cons.mp hnd).1 hy
      rw [List.countP_cons_of_pos _ _ hpa, hzero]
    · have hpx : ¬ p x = true := by
        intro hx
        have hxa : x = a := hu x (List.mem_cons_self _ _) hx
        subst hxa
        exact (List.nodup_cons.mp hnd).1 ha'
      rw [List.countP_cons_of_neg _ _ hpx]
      exact ih (List.nodup_cons.mp hnd).2 ha'
        (fun y hy hpy => hu y (List.mem_cons_of_mem _ hy) hpy)

/-- C1: on a successful mark-final call for a mockup of the session, exactly
one mockup row of the session carries is_final, it is the chosen one, and the
session final_mockup_url equals the chosen mockup image_url. -/
theorem markMockupFinal_spec (db : DB) (sessionId mockupId : Nat) (now : String)
    (mockup : Mockup)
    (hfind : db.mockups.find? (fun m => m.id == mockupId) = some mockup)
    (hsess : mockup.session_id = sessionId)
    (hnodup : (db.mockups.map Mockup.id).Nodup)
    (db' : DB)
    (h : markMockupFinal db sessionId mockupId now = Except.ok db') :
    db'.mockups.countP (fun m => m.session_id == sessionId && m.is_final) = 1
    ∧ (∀ m ∈ db'.mockups, m.session_id = sessionId → (m.is_final = true ↔ m.id = mockupId))
    ∧ (∀ s ∈ db'.sessions, s.id = sessionId → s.final_mockup_url = some mockup.image_url) := by
  have hmem : mockup ∈ db.mockups := List.mem_of_find?_eq_some hfind
  have hid : mockup.id = mockupId := by
    have hp := List.find?_some hfind
    simpa using hp
  have huniq : ∀ m ∈ db.mockups, m.id = mockupId → m = mockup := by
    intro m hm hmid
    exact List.inj_on_of_nodup_map hnodup hm hmem (by rw [hmid, hid])
  simp only [markMockupFinal, hfind] at h
  injection h with h
  subst h
  refine ⟨?_, ?_, ?_⟩
  · rw [List.map_map, List.countP_map]
    have hcong : ∀ m ∈ db.mockups,
        (((fun m => m.session_id == sessionId && m.is_final) ∘
            ((fun m => if m.id == mockupId then { m with is_final := true } else m) ∘
             (fun m => if m.session_id == sessionId then { m with is_final := false } else m)))
          m = true)
        ↔ ((fun m : Mockup => m.id == mockupId) m = true) := by
      intro m hm
      by_cases h1 : m.id = mockupId
      · have hmq : m = mockup := huniq m hm h1
        subst hmq
        simp [Function.comp, hsess, h1]
      · by_cases h2 : m.session_id = sessionId
        · simp [Function.comp, h1, h2]
        · simp [Function.comp, h1, h2]
    rw [List.countP_congr hcong]
    refine countP_eq_one_of_unique _ _ mockup (List.Nodup.of_map _ hnodup) hmem
      (by simp [hid]) ?_
    intro x hx hpx
    exact huniq x hx (by simpa using hpx)
  · intro m hm hms
    rw [List.map_map] at hm
    obtain ⟨m0, hm0, rfl⟩ := List.mem_map.mp hm
    by_cases h1 : m0.id = mockupId
    · have hmq : m0 = mockup := huniq m0 hm0 h1
      subst hmq
      simp [Function.comp, hsess, h1, hid]
    · by_cases h2 : m0.session_id = sessionId
      · simp [Function.comp, h1, h2]
      · exact absurd (show m0.session_id = sessionId by
          simpa [Function.comp, h1, h2] using hms) h2
  · intro s hs hsid
    obtain ⟨s0, hs0, rfl⟩ := List.mem_map.mp hs
    by_cases h1 : s0.id = sessionId
    · simp [h1]
    · exact absurd (show s0.id = sessionId by simpa [h1] using hsid) h1

/-- A mockup currently flagged final, to exercise the mark-final flow. -/
def c1mockupA : Mockup :=
  { id := 10, session_id := 1, image_url := "a.jpg", prompt := "p1",
    ai_provider := "openai-dalle3", is_final := true }

/-- The mockup that the mark-final flow is asked to choose. -/
def c1mockupB : Mockup :=
  { id := 11, session_id := 1, image_url := "b.jpg", prompt := "p2",
    ai_provider := "openai-dalle3", is_final := false }

/-- A session owning the two mockups above. -/
def c1session : Session :=
  { id := 1, client_name := "Alice", client_email := none,
    original_image_url := some "o.jpg", final_mockup_url := some "a.jpg",
    status := "mockup_created", updated_at := "t0" }

/-- The store before the mark-final call. -/
def c1db : DB := { sessions := [c1session], mockups := [c1mockupA, c1mockupB], estimates := [] }

/-- The store after marking c1mockupB final. -/
def c1dbAfter : DB :=
  { sessions := [{ c1session with final_mockup_url := some "b.jpg", updated_at := "t1" }],
    mockups := [{ c1mockupA with is_final := false }, { c1mockupB with is_final := true }],
    estimates := [] }

/-- Witness for C1: the mark-final theorem applied to a concrete store where
mockup A was previously final and B is chosen. -/
theorem markMockupFinal_spec_witness :
    c1dbAfter.mockups.countP (fun m => m.session_id == 1 && m.is_final) = 1
    ∧ (∀ m ∈ c1dbAfter.mockups, m.session_id = 1 → (m.is_final = true ↔ m.id = 11))
    ∧ (∀ s ∈ c1dbAfter.sessions, s.id = 1 → s.final_mockup_url = some c1mockupB.image_url) :=
  markMockupFinal_spec c1db 1 11 "t1" c1mockupB (by rfl) rfl (by decide) c1dbAfter (by rfl)

/-- A session with a photo but no mockup yet, in status photo_uploaded. -/
def c3session : Session :=
  { id := 1, client_name := "Alice", client_email := none,
    original_image_url := some "photo.jpg", final_mockup_url := none,
    status := "photo_uploaded", updated_at := "t0" }

/-- The store before the generate-mockup call. -/
def c3db : DB := { sessions := [c3session], mockups := [], estimates := [] }

/-- The c3 session as updated by the generate-mockup call. -/
def c3sessionAfter : Session :=
  { id := 1, client_name := "Alice", client_email := none,
    original_image_url := some "photo.jpg", final_mockup_url := some "mock.jpg",
    status := "mockup_created", updated_at := "t1" }

/-- The store after the generate-mockup call. -/
def c3dbAfter : DB :=
  { sessions := [c3sessionAfter],
    mockups := [{ id := 20, session_id := 1, image_url := "mock.jpg", prompt := "p",
                  ai_provider := "openai-dalle3", is_final := false }],
    estimates := [] }

/-- C3 counterexample: a successful generateMockup call does not leave the
session untouched: starting from final_mockup_url none and status
photo_uploaded, it sets final_mockup_url to the generated image and advances
status to mockup_created. -/
theorem generateMockup_counterexample :
    c3session.final_mockup_url = none
    ∧ c3session.status = "photo_uploaded"
    ∧ generateMockup c3db 1 20 "mock.jpg" "p" "t1" = Except.ok c3dbAfter
    ∧ (∀ s ∈ c3dbAfter.sessions, s.id = 1 →
        s.final_mockup_url = some "mock.jpg" ∧ s.status = "mockup_created") := by
  refine ⟨rfl, rfl, rfl, ?_⟩
  intro s hs h1
  have hs0 : s = c3sessionAfter := by simpa [c3dbAfter] using hs
  subst hs0
  exact ⟨rfl, rfl⟩

/-- C3 amended: a successful generateMockup call appends exactly one new
mockup row with is_final false, and additionally updates the session, setting
its final_mockup_url to the generated image and its status to mockup_created;
estimates are untouched. -/
theorem generateMockup_spec (db : DB) (sessionId newId : Nat)
    (publicUrl landscapingPrompt now : String) (db' : DB)
    (h : generateMockup db sessionId newId publicUrl landscapingPrompt now = Except.ok db') :
    db'.mockups = db.mockups ++
      [{ id := newId, session_id := sessionId, image_url := publicUrl,
         prompt := landscapingPrompt, ai_provider := "openai-dalle3", is_final := false }]
    ∧ db'.estimates = db.estimates
    ∧ (∀ s ∈ db'.sessions, s.id = sessionId →
        s.status = "mockup_created" ∧ s.final_mockup_url = some publicUrl)
    ∧ (∀ s ∈ db'.sessions, s.id ≠ sessionId → s ∈ db.sessions) := by
  cases hfind : db.sessions.find? (fun s => s.id == sessionId) with
  | none => rw [generateMockup, hfind] at h; cases h
  | some s0 =>
    simp only [generateMockup, hfind] at h
    injection h with h
    subst h
    refine ⟨rfl, rfl, ?_, ?_⟩
    · intro s hs hsid
      obtain ⟨t, ht, rfl⟩ := List.mem_map.mp hs
      by_cases h1 : t.id = sessionId
      · simp [h1]
      · exact absurd (show t.id = sessionId by simpa [h1] using hsid) h1
    · intro s hs hsid
      obtain ⟨t, ht, rfl⟩ := List.mem_map.mp hs
      by_cases h1 : t.id = sessionId
      · exact absurd (by simp [h1]) hsid
      · simpa [h1] using ht

/-- Witness for the amended C3 theorem at the concrete store c3db. -/
theorem generateMockup_spec_witness :
    c3dbAfter.mockups = c3db.mockups ++
      [{ id := 20, session_id := 1, image_url := "mock.jpg",
         prompt := "p", ai_provider := "openai-dalle3", is_final := false }]
    ∧ c3dbAfter.estimates = c3db.estimates
    ∧ (∀ s ∈ c3dbAfter.sessions, s.id = 1 →
        s.status = "mockup_created" ∧ s.final_mockup_url = some "mock.jpg")
    ∧ (∀ s ∈ c3dbAfter.sessions, s.id ≠ 1 → s ∈ c3db.sessions) :=
  generateMockup_spec c3db 1 20 "mock.jpg" "p" "t1" c3dbAfter (by rfl)

theorem removePhoto_ok_shape (db : DB) (sessionId : Nat) (urlPathParts : List String)
    (storageResult : StorageResult) (now : String) (db' : DB)
    (h : removePhoto db sessionId urlPathParts storageResult now = Except.ok db') :
    db'.sessions = db.sessions.map (fun s =>
        if s.id == sessionId then { s with original_image_url := none, updated_at := now }
        else s)
    ∧ db'.mockups = db.mockups.filter (fun m => !(m.session_id == sessionId))
    ∧ db'.estimates = db.estimates := by
  cases hps : parseStorageRef urlPathParts with
  | none => rw [removePhoto, hps] at h; cases h
  | some v =>
    simp only [removePhoto, hps] at h
    injection h with h
    subst h
    exact ⟨rfl, rfl, rfl⟩

/-- The URL path segments of a typical public storage object URL. -/
def c4parts : List String :=
  ["", "storage", "v1", "object", "public", "session-photos", "orig.jpg"]

/-- A session with both a photo and a chosen final mockup. -/
def c4session : Session :=
  { id := 1, client_name := "Alice", client_email := none,
    original_image_url := some "orig.jpg", final_mockup_url := some "final.jpg",
    status := "mockup_created", updated_at := "t0" }

/-- The store before the delete-photo call. -/
def c4db : DB :=
  { sessions := [c4session],
    mockups := [{ id := 10, session_id := 1, image_url := "final.jpg", prompt := "p",
                  ai_provider := "openai-dalle3", is_final := true }],
    estimates := [] }

/-- The store after the delete-photo call. -/
def c4dbAfter : DB :=
  { sessions := [{ c4session with original_image_url := none, updated_at := "t1" }],
    mockups := [], estimates := [] }

/-- C4 counterexample: removePhoto succeeds, deletes the session mockups and
clears the photo, but the session final_mockup_url is left at its old value
rather than being cleared. -/
theorem removePhoto_counterexample :
    removePhoto c4db 1 c4parts StorageResult.ok "t1" = Except.ok c4dbAfter
    ∧ (∀ s ∈ c4dbAfter.sessions, s.final_mockup_url = some "final.jpg")
    ∧ c4dbAfter.mockups = []
    ∧ (∀ s ∈ c4dbAfter.sessions, s.original_image_url = none) := by
  refine ⟨rfl, ?_, rfl, ?_⟩ <;> decide

/-- C4 amended: a successful removePhoto deletes all mockup rows of the
session and clears the session original photo reference, but it leaves every
session final_mockup_url unchanged (the final mockup reference is not
cleared); estimates are untouched. -/
theorem removePhoto_spec (db : DB) (sessionId : Nat) (urlPathParts : List String)
    (storageResult : StorageResult) (now : String) (db' : DB)
    (h : removePhoto db sessionId urlPathParts storageResult now = Except.ok db') :
    (∀ m ∈ db'.mockups, m.session_id ≠ sessionId)
    ∧ (∀ s ∈ db'.sessions, s.id = sessionId → s.original_image_url = none)
    ∧ db'.sessions.map Session.final_mockup_url = db.sessions.map Session.final_mockup_url
    ∧ db'.estimates = db.estimates := by
  obtain ⟨hsess, hmock, hest⟩ :=
    removePhoto_ok_shape db sessionId urlPathParts storageResult now db' h
  refine ⟨?_, ?_, ?_, hest⟩
  · intro m hm
    rw [hmock] at hm
    have := List.of_mem_filter hm
    simpa using this
  · intro s hs hsid
    rw [hsess] at hs
    obtain ⟨t, ht, rfl⟩ := List.mem_map.mp hs
    by_cases h1 : t.id = sessionId
    · simp [h1]
    · exact absurd (show t.id = sessionId by simpa [h1] using hsid) h1
  · rw [hsess, List.map_map]
    refine List.map_congr_left ?_
    intro t ht
    by_cases h1 : t.id = sessionId <;> simp [Function.comp, h1]

/-- Witness for the amended C4 theorem at the concrete store c4db. -/
theorem removePhoto_spec_witness :
    (∀ m ∈ c4dbAfter.mockups, m.session_id ≠ 1)
    ∧ (∀ s ∈ c4dbAfter.sessions, s.id = 1 → s.original_image_url = none)
    ∧ c4dbAfter.sessions.map Session.final_mockup_url
        = c4db.sessions.map Session.final_mockup_url
    ∧ c4dbAfter.estimates = c4db.estimates :=
  removePhoto_spec c4db 1 c4parts StorageResult.ok "t1" c4dbAfter (by rfl)

/-- C10: the outcome of the blob-store delete has no influence on the result
of removePhoto: a storage error is only logged, the route still reports
success, clears the session photo reference and deletes the session mockups. -/
theorem removePhoto_storage_error_ignored (db : DB) (sessionId : Nat)
    (urlPathParts : List String) (msg now : String) :
    removePhoto db sessionId urlPathParts (StorageResult.err msg) now
      = removePhoto db sessionId urlPathParts StorageResult.ok now
    ∧ ((parseStorageRef urlPathParts).isSome →
        ∃ db', removePhoto db sessionId urlPathParts (StorageResult.err msg) now
            = Except.ok db'
          ∧ (∀ s ∈ db'.sessions, s.id = sessionId → s.original_image_url = none)
          ∧ (∀ m ∈ db'.mockups, m.session_id ≠ sessionId)) := by
  constructor
  · rfl
  · intro hp
    cases hps : parseStorageRef urlPathParts with
    | none => rw [hps] at hp; cases hp
    | some v =>
      refine ⟨_, by rw [removePhoto, hps], ?_, ?_⟩
      · intro s hs hsid
        obtain ⟨t, ht, rfl⟩ := List.mem_map.mp hs
        by_cases h1 : t.id = sessionId
        · simp [h1]
        · exact absurd (show t.id = sessionId by simpa [h1] using hsid) h1
      · intro m hm
        have := List.of_mem_filter hm
        simpa using this

/-- Witness for C10: the storage-error independence theorem applied at the
concrete store c4db with a failing blob delete. -/
theorem removePhoto_storage_error_ignored_witness :
    removePhoto c4db 1 c4parts (StorageResult.err "boom") "t1"
      = removePhoto c4db 1 c4parts StorageResult.ok "t1"
    ∧ ((parseStorageRef c4parts).isSome →
        ∃ db', removePhoto c4db 1 c4parts (StorageResult.err "boom") "t1" = Except.ok db'
          ∧ (∀ s ∈ db'.sessions, s.id = 1 → s.original_image_url = none)
          ∧ (∀ m ∈ db'.mockups, m.session_id ≠ 1)) :=
  removePhoto_storage_error_ignored c4db 1 c4parts "boom" "t1"

/-- updateSession of the session workflow page, applied to a status change
(the page callback after a contract is signed). -/
def updateSessionStatus (db : DB) (sessionId : Nat) (status : String) : DB :=
  { db with sessions := db.sessions.map fun s =>
      if s.id == sessionId then { s with status := status } else s }

/-- The update the generate-contract route applies to the estimate row: the
contract URL always; the signature and signing timestamp only when signature
data was sent. -/
def applyContractUpdate (publicUrl now : String) (signatureData : Option String)
    (e : Estimate) : Estimate :=
  match signatureData with
  | some sig =>
    { e with contract_pdf_url := some publicUrl,
             signature_data := some sig, signed_at := some now }
  | none => { e with contract_pdf_url := some publicUrl }

/-- The generate-contract API route (POST), success path of the PDF upload:
both rows must exist; the estimate gets the new contract URL, and, exactly
when signature data is present, the signature and signing timestamp; the
session status becomes contract_signed with a signature and
estimate_generated without one. -/
def generateContractRoute (db : DB) (sessionId estimateId : Nat)
    (signatureData : Option String) (publicUrl now : String) : Except String DB :=
  match db.sessions.find? (fun s => s.id == sessionId),
        db.estimates.find? (fun e => e.id == estimateId) with
  | some _, some _ =>
    let estimates := db.estimates.map fun e =>
      if e.id == estimateId then applyContractUpdate publicUrl now signatureData e else e
    let newStatus := if signatureData.isSome then "contract_signed" else "estimate_generated"
    let sessions := db.sessions.map fun s =>
      if s.id == sessionId then { s with status := newStatus, updated_at := now } else s
    Except.ok { db with estimates := estimates, sessions := sessions }
  | _, _ => Except.error "Failed to fetch session or estimate data"

/-- The upload-signed-contract API route (POST), success path of the file
upload: validate the file, require both rows, then set the contract URL, the
signing timestamp and the signature method on the estimate; the session row is
not touched by this route. -/
def uploadSignedContractRoute (db : DB) (sessionId estimateId : Nat)
    (fileType : String) (fileSize : Nat) (publicUrl now : String) : Except String DB :=
  if fileType ≠ "application/pdf" then Except.error "Only PDF files are allowed"
  else if fileSize > 10 * 1024 * 1024 then
    Except.error "File size must be less than 10MB"
  else
    match db.sessions.find? (fun s => s.id == sessionId),
          db.estimates.find? (fun e => e.id == estimateId) with
    | some _, some _ =>
      let estimates := db.estimates.map fun e =>
        if e.id == estimateId then
          { e with contract_pdf_url := some publicUrl, signed_at := some now,
                   signature_method := some "adobe_acrobat" }
        else e
      Except.ok { db with estimates := estimates }
    | _, _ => Except.error "Invalid session or estimate ID"

/-- Client-side application state: the store plus the log of notification
email requests dispatched so far. -/
structure AppState where
  db : DB
  emails : List String
  deriving Repr, DecidableEq

/-- The notification block of ContractGenerator.tsx: two email requests are
dispatched (client confirmation, then internal team alert); their delivery
outcomes are only logged and touch no other state. -/
def sendContractEmails (st : AppState) (firstDelivered secondDelivered : Bool) : AppState :=
  { st with emails := st.emails ++ ["contract_signed", "team_notification"] }

/-- signContract of ContractGenerator.tsx wired into the session page: post
the contract with the captured signature, dispatch the two notifications
(failures swallowed), then the page callback marks the session
contract_signed. -/
def signContractFlow (st : AppState) (sessionId estimateId : Nat)
    (sig publicUrl now : String) (firstDelivered secondDelivered : Bool) :
    Except String AppState :=
  match generateContractRoute st.db sessionId estimateId (some sig) publicUrl now with
  | Except.error e => Except.error e
  | Except.ok db1 =>
    let st1 := sendContractEmails { st with db := db1 } firstDelivered secondDelivered
    Except.ok { st1 with db := updateSessionStatus st1.db sessionId "contract_signed" }

/-- handleSignedContractUpload of ContractGenerator.tsx wired into the session
page: upload the externally signed document, dispatch the two notifications
(failures swallowed), then the page callback marks the session
contract_signed. -/
def uploadSignedContractFlow (st : AppState) (sessionId estimateId : Nat)
    (fileType : String) (fileSize : Nat) (publicUrl now : String)
    (firstDelivered secondDelivered : Bool) : Except String AppState :=
  match uploadSignedContractRoute st.db sessionId estimateId fileType fileSize publicUrl now with
  | Except.error e => Except.error e
  | Except.ok db1 =>
    let st1 := sendContractEmails { st with db := db1 } firstDelivered secondDelivered
    Except.ok { st1 with db := updateSessionStatus st1.db sessionId "contract_signed" }

/-- The common postcondition of the two contract-completion paths: contract
URL and signing timestamp set on the estimate, session status contract_signed,
and both notification requests dispatched. -/
def contractSignedPost (st : AppState) (sessionId estimateId : Nat)
    (publicUrl now : String) (previousEmails : List String) : Prop :=
  (∀ e ∈ st.db.estimates, e.id = estimateId →
      e.contract_pdf_url = some publicUrl ∧ e.signed_at = some now)
  ∧ (∀ s ∈ st.db.sessions, s.id = sessionId → s.status = "contract_signed")
  ∧ st.emails = previousEmails ++ ["contract_signed", "team_notification"]

theorem generateContractRoute_ok_shape (db : DB) (sessionId estimateId : Nat)
    (signatureData : Option String) (publicUrl now : String) (db' : DB)
    (h : generateContractRoute db sessionId estimateId signatureData publicUrl now
        = Except.ok db') :
    db'.estimates = db.estimates.map (fun e =>
      if e.id == estimateId then applyContractUpdate publicUrl now signatureData e else e)
    ∧ db'.sessions = db.sessions.map (fun s =>
        if s.id == sessionId then
          { s with status := (if signatureData.isSome then "contract_signed"
                              else "estimate_generated"),
                   updated_at := now }
        else s)
    ∧ db'.mockups = db.mockups := by
  cases hs : db.sessions.find? (fun s => s.id == sessionId) with
  | none =>
    simp only [generateContractRoute, hs] at h
    cases h
  | some s0 =>
    cases he : db.estimates.find? (fun e => e.id == estimateId) with
    | none =>
      simp only [generateContractRoute, hs, he] at h
      cases h
    | some e0 =>
      simp only [generateContractRoute, hs, he] at h
      injection h with h
      subst h
      exact ⟨rfl, rfl, rfl⟩

theorem uploadSignedContractRoute_ok_shape (db : DB) (sessionId estimateId : Nat)
    (fileType : String) (fileSize : Nat) (publicUrl now : String) (db' : DB)
    (h : uploadSignedContractRoute db sessionId estimateId fileType fileSize publicUrl now
        = Except.ok db') :
    db'.estimates = db.estimates.map (fun e =>
      if e.id == estimateId then
        { e with contract_pdf_url := some publicUrl, signed_at := some now,
                 signature_method := some "adobe_acrobat" }
      else e)
    ∧ db'.sessions = db.sessions
    ∧ db'.mockups = db.mockups := by
  by_cases ht : fileType ≠ "application/pdf"
  · simp only [uploadSignedContractRoute, if_pos ht] at h
    cases h
  · by_cases hz : fileSize > 10 * 1024 * 1024
    · simp only [uploadSignedContractRoute, if_neg ht, if_pos hz] at h
      cases h
    · cases hs : db.sessions.find? (fun s => s.id == sessionId) with
      | none =>
        simp only [uploadSignedContractRoute, if_neg ht, if_neg hz, hs] at h
        cases h
      | some s0 =>
        cases he : db.estimates.find? (fun e => e.id == estimateId) with
        | none =>
          simp only [uploadSignedContractRoute, if_neg ht, if_neg hz, hs, he] at h
          cases h
        | some e0 =>
          simp only [uploadSignedContractRoute, if_neg ht, if_neg hz, hs, he] at h
          injection h with h
          subst h
          exact ⟨rfl, rfl, rfl⟩

/-- C7: the in-app signature path and the external upload path, each followed
by the notification dispatch and the page callback, converge on the same
postcondition, and the notification delivery outcomes never change the result
(failures cannot roll the signed state back). -/
theorem contract_paths_converge (st : AppState) (sessionId estimateId : Nat)
    (sig fileType : String) (fileSize : Nat) (publicUrl now : String)
    (d1 d2 d1' d2' : Bool) (stA stB : AppState)
    (hA : signContractFlow st sessionId estimateId sig publicUrl now d1 d2 = Except.ok stA)
    (hB : uploadSignedContractFlow st sessionId estimateId fileType fileSize publicUrl now
        d1' d2' = Except.ok stB) :
    contractSignedPost stA sessionId estimateId publicUrl now st.emails
    ∧ contractSignedPost stB sessionId estimateId publicUrl now st.emails
    ∧ (∀ f1 f2, signContractFlow st sessionId estimateId sig publicUrl now f1 f2
        = Except.ok stA)
    ∧ (∀ f1 f2, uploadSignedContractFlow st sessionId estimateId fileType fileSize
        publicUrl now f1 f2 = Except.ok stB) := by
  refine ⟨?_, ?_, ?_, ?_⟩
  · cases hr : generateContractRoute st.db sessionId estimateId (some sig) publicUrl now with
    | error e => rw [signContractFlow, hr] at hA; cases hA
    | ok db1 =>
      simp only [signContractFlow, hr] at hA
      injection hA with hA
      subst hA
      obtain ⟨hest, hsess, -⟩ :=
        generateContractRoute_ok_shape st.db sessionId estimateId (some sig) publicUrl now db1 hr
      refine ⟨?_, ?_, rfl⟩
      · intro e he heid
        simp only [sendContractEmails, updateSessionStatus] at he
        rw [hest] at he
        obtain ⟨t, ht, rfl⟩ := List.mem_map.mp he
        by_cases h1 : t.id = estimateId
        · simp [h1, applyContractUpdate]
        · exact absurd (show t.id = estimateId by
            simpa [h1, applyContractUpdate] using heid) h1
      · intro s hs hsid
        simp only [sendContractEmails, updateSessionStatus] at hs
        obtain ⟨t, ht, rfl⟩ := List.mem_map.mp hs
        by_cases h1 : t.id = sessionId
        · simp [h1]
        · exact absurd (show t.id = sessionId by simpa [h1] using hsid) h1
  · cases hr : uploadSignedContractRoute st.db sessionId estimateId fileType fileSize
        publicUrl now with
    | error e => rw [uploadSignedContractFlow, hr] at hB; cases hB
    | ok db1 =>
      simp only [uploadSignedContractFlow, hr] at hB
      injection hB with hB
      subst hB
      obtain ⟨hest, hsess, -⟩ :=
        uploadSignedContractRoute_ok_shape st.db sessionId estimateId fileType fileSize
          publicUrl now db1 hr
      refine ⟨?_, ?_, rfl⟩
      · intro e he heid
        simp only [sendContractEmails, updateSessionStatus] at he
        rw [hest] at he
        obtain ⟨t, ht, rfl⟩ := List.mem_map.mp he
        by_cases h1 : t.id = estimateId
        · simp [h1]
        · exact absurd (show t.id = estimateId by simpa [h1] using heid) h1
      · intro s hs hsid
        simp only [sendContractEmails, updateSessionStatus] at hs
        obtain ⟨t, ht, rfl⟩ := List.mem_map.mp hs
        by_cases h1 : t.id = sessionId
        · simp [h1]
        · exact absurd (show t.id = sessionId by simpa [h1] using hsid) h1
  · intro f1 f2
    cases hr : generateContractRoute st.db sessionId estimateId (some sig) publicUrl now with
    | error e => rw [signContractFlow, hr] at hA; cases hA
    | ok db1 =>
      simp only [signContractFlow, hr] at hA ⊢
      exact hA
  · intro f1 f2
    cases hr : uploadSignedContractRoute st.db sessionId estimateId fileType fileSize
        publicUrl now with
    | error e => rw [uploadSignedContractFlow, hr] at hB; cases hB
    | ok db1 =>
      simp only [uploadSignedContractFlow, hr] at hB ⊢
      exact hB

/-- C9: whenever the generate-contract route is called without signature data
and succeeds, the session status is set to estimate_generated, whatever it was
before. -/
theorem generateContract_unsigned_regresses (db : DB) (sessionId estimateId : Nat)
    (publicUrl now : String) (db' : DB)
    (h : generateContractRoute db sessionId estimateId none publicUrl now = Except.ok db') :
    ∀ s ∈ db'.sessions, s.id = sessionId → s.status = "estimate_generated" := by
  obtain ⟨-, hsess, -⟩ :=
    generateContractRoute_ok_shape db sessionId estimateId none publicUrl now db' h
  intro s hs hsid
  rw [hsess] at hs
  obtain ⟨t, ht, rfl⟩ := List.mem_map.mp hs
  by_cases h1 : t.id = sessionId
  · simp [h1]
  · exact absurd (show t.id = sessionId by simpa [h1] using hsid) h1

/-- An estimate not yet signed, for the contract flows. -/
def c7estimate : Estimate :=
  { id := 5, session_id := 1, items := [⟨1, 10, 8, 12⟩], subtotal := 10,
    low_estimate := 8, high_estimate := 12, final_amount := 10,
    contract_pdf_url := none, signature_data := none, signed_at := none,
    signature_method := none }

/-- A session at the estimate stage, for the contract flows. -/
def c7session : Session :=
  { id := 1, client_name := "Alice", client_email := some "alice@example.com",
    original_image_url := some "o.jpg", final_mockup_url := some "m.jpg",
    status := "estimate_generated", updated_at := "t1" }

/-- The application state before either contract-completion path. -/
def c7state : AppState :=
  { db := { sessions := [c7session], mockups := [], estimates := [c7estimate] },
    emails := [] }

/-- The c7 estimate as updated by the in-app signature path. -/
def c7estimateA : Estimate :=
  { id := 5, session_id := 1, items := [⟨1, 10, 8, 12⟩], subtotal := 10,
    low_estimate := 8, high_estimate := 12, final_amount := 10,
    contract_pdf_url := some "c.pdf", signature_data := some "sigdata",
    signed_at := some "t2", signature_method := none }

/-- The c7 estimate as updated by the external upload path. -/
def c7estimateB : Estimate :=
  { id := 5, session_id := 1, items := [⟨1, 10, 8, 12⟩], subtotal := 10,
    low_estimate := 8, high_estimate := 12, final_amount := 10,
    contract_pdf_url := some "c.pdf", signature_data := none,
    signed_at := some "t2", signature_method := some "adobe_acrobat" }

/-- The application state after the in-app signature path. -/
def c7stateA : AppState :=
  { db := { sessions := [{ c7session with status := "contract_signed", updated_at := "t2" }],
            mockups := [],
            estimates := [c7estimateA] },
    emails := ["contract_signed", "team_notification"] }

/-- The application state after the external upload path. -/
def c7stateB : AppState :=
  { db := { sessions := [{ c7session with status := "contract_signed" }],
            mockups := [],
            estimates := [c7estimateB] },
    emails := ["contract_signed", "team_notification"] }

/-- Witness for C7: the convergence theorem applied at a concrete state, one
flow per path, with all notification delivery outcomes. -/
theorem contract_paths_converge_witness :
    contractSignedPost c7stateA 1 5 "c.pdf" "t2" c7state.emails
    ∧ contractSignedPost c7stateB 1 5 "c.pdf" "t2" c7state.emails
    ∧ (∀ f1 f2, signContractFlow c7state 1 5 "sigdata" "c.pdf" "t2" f1 f2
        = Except.ok c7stateA)
    ∧ (∀ f1 f2, uploadSignedContractFlow c7state 1 5 "application/pdf" 1000 "c.pdf" "t2" f1 f2
        = Except.ok c7stateB) :=
  contract_paths_converge c7state 1 5 "sigdata" "application/pdf" 1000 "c.pdf" "t2"
    true true true true c7stateA c7stateB (by rfl) (by rfl)

/-- A signed estimate, for the regeneration scenario. -/
def c9estimate : Estimate :=
  { id := 5, session_id := 1, items := [⟨1, 10, 8, 12⟩], subtotal := 10,
    low_estimate := 8, high_estimate := 12, final_amount := 10,
    contract_pdf_url := some "old.pdf", signature_data := some "sigdata",
    signed_at := some "t1", signature_method := none }

/-- A session already in contract_signed status. -/
def c9session : Session :=
  { id := 1, client_name := "Alice", client_email := some "alice@example.com",
    original_image_url := some "o.jpg", final_mockup_url := some "m.jpg",
    status := "contract_signed", updated_at := "t1" }

/-- The store before regenerating the unsigned contract. -/
def c9db : DB := { sessions := [c9session], mockups := [], estimates := [c9estimate] }

/-- The store after regenerating the contract without signature data. -/
def c9dbAfter : DB :=
  { sessions := [{ c9session with status := "estimate_generated", updated_at := "t2" }],
    mockups := [],
    estimates := [{ c9estimate with contract_pdf_url := some "new.pdf" }] }

/-- Witness for C9: regenerating an unsigned contract for a session already in
contract_signed status regresses it to estimate_generated. -/
theorem generateContract_unsigned_regresses_witness :
    c9session.status = "contract_signed"
    ∧ ∀ s ∈ c9dbAfter.sessions, s.id = 1 → s.status = "estimate_generated" :=
  ⟨rfl, generateContract_unsigned_regresses c9db 1 5 "new.pdf" "t2" c9dbAfter (by rfl)⟩

/-- A row of the pricing_items catalog (also the shape of the parsed
spreadsheet rows and of the hard-coded default list). -/
structure PricingItem where
  id : String
  name : String
  category : String
  description : String
  low_price : ℚ
  high_price : ℚ
  unit : String
  deriving Repr, DecidableEq

/-- Which of the three tiers produced the pricing response. -/
inductive PricingSource
  | database
  | sheets
  | fallbackDefault
  deriving Repr, DecidableEq

/-- The hard-coded default pricing list of the pricing route. -/
def defaultItems : List PricingItem :=
  [ { id := "default-1", name := "Lawn Installation (per sq ft)", category := "lawn",
      description := "New sod or seed installation", low_price := 2.5, high_price := 4,
      unit := "sq ft" },
    { id := "default-2", name := "Flower Bed Design (per sq ft)", category := "planting",
      description := "Designed flower bed with plants", low_price := 8, high_price := 15,
      unit := "sq ft" },
    { id := "default-3", name := "Tree Planting (small)", category := "trees",
      description := "Small ornamental tree installation", low_price := 150,
      high_price := 300, unit := "each" },
    { id := "default-4", name := "Tree Planting (large)", category := "trees",
      description := "Large shade tree installation", low_price := 400,
      high_price := 800, unit := "each" },
    { id := "default-5", name := "Mulch Installation", category := "maintenance",
      description := "Premium mulch spread", low_price := 3.5, high_price := 5,
      unit := "sq ft" },
    { id := "default-6", name := "Irrigation System (basic)", category := "irrigation",
      description := "Basic sprinkler system installation", low_price := 2500,
      high_price := 4000, unit := "system" },
    { id := "default-7", name := "Hardscaping (walkway)", category := "hardscape",
      description := "Stone or concrete walkway", low_price := 12, high_price := 25,
      unit := "sq ft" },
    { id := "default-8", name := "Landscape Lighting", category := "lighting",
      description := "LED landscape lighting installation", low_price := 200,
      high_price := 400, unit := "fixture" } ]

/-- The category filter of the pricing route: no filtering when the category
parameter is absent or empty, otherwise a case-insensitive comparison. -/
def categoryMatches (category : Option String) (itemCategory : String) : Bool :=
  !(truthyOpt category) || (itemCategory.toLower == (category.getD "").toLower)

/-- One raw spreadsheet row: the six optional cells of the pricing range. -/
structure SheetRow where
  name : Option String
  category : Option String
  description : Option String
  lowPrice : Option ℚ
  highPrice : Option ℚ
  unit : Option String
  deriving Repr, DecidableEq

/-- Parsing of one spreadsheet row into a catalog item, with the defaults the
route substitutes for missing cells. -/
def sheetRowToItem (idx : Nat) (row : SheetRow) : PricingItem :=
  { id := "sheet-" ++ toString idx,
    name := row.name.getD "",
    category := row.category.getD "general",
    description := row.description.getD "",
    low_price := row.lowPrice.getD 0,
    high_price := row.highPrice.getD 0,
    unit := row.unit.getD "each" }

/-- The spreadsheet tier of the pricing route: skip the header row, parse, and
filter by category. -/
def sheetsTier (rows : List SheetRow) (category : Option String) : List PricingItem :=
  ((rows.drop 1).mapIdx sheetRowToItem).filter fun item =>
    categoryMatches category item.category

/-- The default tier of the pricing route: the hard-coded list filtered by
category. -/
def defaultTier (category : Option String) : List PricingItem :=
  defaultItems.filter fun item => categoryMatches category item.category

/-- The tiers after the persisted table yielded nothing: the spreadsheet when
it is configured and readable (its rows are returned even when there are
none), otherwise the built-in default list. -/
def fetchPricingAfterDb (sheetsConfigured : Bool)
    (sheetsRows : Except String (List SheetRow)) (category : Option String) :
    PricingSource × List PricingItem :=
  if sheetsConfigured then
    match sheetsRows with
    | Except.ok rows =>
      if rows.length = 0 then (PricingSource.sheets, [])
      else (PricingSource.sheets, sheetsTier rows category)
    | Except.error _ => (PricingSource.fallbackDefault, defaultTier category)
  else (PricingSource.fallbackDefault, defaultTier category)

/-- The pricing API route (GET): the persisted catalog table when its query
succeeds with a non-empty result, then the spreadsheet, then the built-in
defaults. -/
def fetchPricing (dbItems : Except String (List PricingItem)) (sheetsConfigured : Bool)
    (sheetsRows : Except String (List SheetRow)) (category : Option String) :
    PricingSource × List PricingItem :=
  match dbItems with
  | Except.ok items =>
    if items.length > 0 then (PricingSource.database, items)
    else fetchPricingAfterDb sheetsConfigured sheetsRows category
  | Except.error _ => fetchPricingAfterDb sheetsConfigured sheetsRows category

/-- C8 counterexample: with an empty catalog table and a configured but empty
spreadsheet, the route answers from the spreadsheet tier with an empty list
instead of moving on to the built-in defaults, although the default tier would
have yielded items. -/
theorem fetchPricing_counterexample :
    fetchPricing (Except.ok []) true (Except.ok []) none = (PricingSource.sheets, [])
    ∧ defaultTier none ≠ [] := by
  refine ⟨rfl, ?_⟩
  intro hcontra
  exact absurd (congrArg List.length hcontra) (by decide)

/-- C8 amended: the three tiers are consulted in order, but the spreadsheet
tier, once configured and readable, answers even with zero rows; the resolver
is total and in the final tier returns exactly the filtered default list. -/
theorem fetchPricing_tiers (dbItems : Except String (List PricingItem))
    (sheetsConfigured : Bool) (sheetsRows : Except String (List SheetRow))
    (category : Option String) :
    ((fetchPricing dbItems sheetsConfigured sheetsRows category).1 = PricingSource.database
      ↔ ∃ l, dbItems = Except.ok l ∧ 0 < l.length)
    ∧ ((fetchPricing dbItems sheetsConfigured sheetsRows category).1 = PricingSource.database
        → ∃ l, dbItems = Except.ok l
            ∧ (fetchPricing dbItems sheetsConfigured sheetsRows category).2 = l)
    ∧ ((fetchPricing dbItems sheetsConfigured sheetsRows category).1 = PricingSource.sheets
      ↔ (¬ ∃ l, dbItems = Except.ok l ∧ 0 < l.length)
        ∧ sheetsConfigured = true ∧ ∃ rows, sheetsRows = Except.ok rows)
    ∧ ((fetchPricing dbItems sheetsConfigured sheetsRows category).1
          = PricingSource.fallbackDefault
      ↔ (¬ ∃ l, dbItems = Except.ok l ∧ 0 < l.length)
        ∧ (sheetsConfigured = false ∨ ∃ msg, sheetsRows = Except.error msg))
    ∧ ((fetchPricing dbItems sheetsConfigured sheetsRows category).1
          = PricingSource.fallbackDefault
        → (fetchPricing dbItems sheetsConfigured sheetsRows category).2
            = defaultTier category) := by
  cases dbItems with
  | error msg =>
    cases sheetsConfigured with
    | false => simp [fetchPricing, fetchPricingAfterDb]
    | true =>
      cases sheetsRows with
      | error m2 => simp [fetchPricing, fetchPricingAfterDb]
      | ok rows =>
        by_cases hlen : rows.length = 0 <;>
          simp [fetchPricing, fetchPricingAfterDb, hlen]
  | ok items =>
    by_cases hitems : items.length > 0
    · simp [fetchPricing, hitems]
    · cases sheetsConfigured with
      | false => simp [fetchPricing, fetchPricingAfterDb, hitems]
      | true =>
        cases sheetsRows with
        | error m2 => simp [fetchPricing, fetchPricingAfterDb, hitems]
        | ok rows =>
          by_cases hlen : rows.length = 0 <;>
            simp [fetchPricing, fetchPricingAfterDb, hitems, hlen]

end E5000
